import Mathlib

/-!
Verification development for the voice-chat front-end (practice-english-conversation).

The repository is a single-page React application (`src/App.tsx`) driving a
turn-taking conversation: browser speech recognition produces partial/final
transcript events, the accumulated final transcript is sent to a chat backend
(`src/services/geminiService.ts`), and the reply is spoken back.

We shallowly embed the controller as an explicit state machine:
the React component state becomes the structure `AppState`, each event handler
becomes a pure function `AppState → AppState × List Effect`, where `Effect`
records the externally visible side actions (backend requests, recognizer
start/stop, speech playback).  Asynchrony is collapsed in the standard way for
such embeddings: an utterance's `onstart` callback is merged into the `speak`
call (`isAISpeaking` becomes true when playback is requested) and the
utterance's `onend`/`onerror` callbacks are delivered as separate events, as
are the recognizer's `onresult`/`onerror`/`onend` callbacks.  `Date.now()`
readings are passed in explicitly as natural numbers.
-/

/-- Speaker of a logged turn (`Sender` in `src/unnamed/part_000`). -/
inductive Sender where
  | user
  | ai
deriving DecidableEq

/-- One logged utterance (`Message` in `src/unnamed/part_000`): id, text,
speaker, creation timestamp.  The id is produced from a `Date.now()` reading
by decimal formatting (`.toString()`, embedded as `Nat.repr`); the timestamp
(`new Date()`) is modelled by the same clock reading. -/
structure Message where
  id : String
  text : String
  sender : Sender
  timestamp : Nat
deriving DecidableEq

/-- One speech-recognition result as consumed by the `onresult` handler:
the first alternative's transcript together with the finality flag
(`event.results[i][0].transcript`, `event.results[i].isFinal`). -/
structure SRResult where
  transcript : String
  isFinal : Bool
deriving DecidableEq

/-- Outcome of the underlying `chat.sendMessage` call awaited inside
`geminiService.getAIChatResponse`: success with the response text, rejection
with an `Error` carrying a message, or rejection with a non-`Error` value. -/
inductive SendOutcome where
  | ok (text : String)
  | err (message : String)
  | errNonError
deriving DecidableEq

/-- Whether a `SendOutcome` is a success. -/
def SendOutcome.isOk : SendOutcome → Bool
  | .ok _ => true
  | _ => false

/-- Externally visible side actions of the controller. -/
inductive Effect where
  | createSession
  | backendSend (text : String)
  | speak (text : String)
  | cancelSpeech
  | startRecognition
  | stopRecognition
deriving DecidableEq

/-- Browser/environment capabilities fixed for a session: whether the
SpeechRecognition API exists (`window.SpeechRecognition`), whether speech
synthesis exists, and whether `process.env.API_KEY` is set. -/
structure Env where
  recognitionAvailable : Bool
  ttsSupported : Bool
  apiKeyPresent : Bool
deriving DecidableEq

/-- The React component state of `App` (`src/App.tsx`), plus `recActive`,
which models the recognizer itself being between `recognition.start()` and the
delivery of its terminal `end` event (recognizer callbacks can only be
delivered while a recognition session is active). -/
structure AppState where
  chat : Option Unit
  messages : List Message
  isRecording : Bool
  interimTranscript : String
  userTranscript : String
  isLoadingAI : Bool
  isAISpeaking : Bool
  error : Option String
  isInitialized : Bool
  apiKeyMissing : Bool
  conversationStarted : Bool
  recActive : Bool
deriving DecidableEq

/-- The `useState` defaults of the `App` component. -/
def initialState : AppState where
  chat := none
  messages := []
  isRecording := false
  interimTranscript := ""
  userTranscript := ""
  isLoadingAI := false
  isAISpeaking := false
  error := none
  isInitialized := false
  apiKeyMissing := false
  conversationStarted := false
  recActive := false

/-- Model of JavaScript `String.prototype.trim`: drop whitespace characters
from both ends of the string. -/
def jsTrim (s : String) : String :=
  String.mk (((s.data.dropWhile Char.isWhitespace).reverse.dropWhile Char.isWhitespace).reverse)

/-- Decidable substring test (used to state banner/turn-text containment). -/
def strContains (hay needle : String) : Bool :=
  hay.data.tails.any (fun t => needle.data.isPrefixOf t)

/-- The seed greeting text logged by `initializeChat` (`src/App.tsx` line 57). -/
def initialMessageText : String :=
  "Hello! I'm your AI English practice partner. How are you doing today?"

/-- The fixed fallback apology text (`src/App.tsx` line 115). -/
def fallbackMessage : String :=
  "Sorry, I encountered an issue. Could you please try that again?"

/-- Embedding of `geminiService.getAIChatResponse`
(`src/services/geminiService.ts` lines 30-44): guard on the credential, then
return the response text or rethrow the failure with a wrapped message. -/
def getAIChatResponse (apiKeyPresent : Bool) (outcome : SendOutcome) : Except String String :=
  if apiKeyPresent = false then
    .error "API_KEY environment variable is not set. Cannot get AI response."
  else
    match outcome with
    | .ok t => .ok t
    | .err m => .error ("Failed to get AI response: " ++ m)
    | .errNonError => .error "Failed to get AI response due to an unknown error."

/-- Embedding of `speakText` (`src/App.tsx` lines 71-90).  If synthesis is
unsupported an error is set and nothing is spoken; otherwise a playing
utterance is cancelled first and the new utterance is spoken.  CAUTION: this
is the synchronous-start approximation — the utterance's `onstart` callback
(which in the source sets `isAISpeaking`, line 82) is collapsed into the
call, so the window in which a speak has been requested but `isAISpeaking`
is still false does not exist in this model.  The faithful asynchronous
version is `speakTextAsync` together with `EventA.speechStart` below; the
two differ exactly on that window.  The utterance's `onend`/`onerror`
callbacks are delivered later as `Event.speechEnd` / `Event.speechError`. -/
def speakText (ttsSupported : Bool) (text : String) (s : AppState) : AppState × List Effect :=
  if ttsSupported = false then
    ({ s with error := some "Text-to-Speech not supported in this browser." }, [])
  else
    let cancelEffs := if s.isAISpeaking then [Effect.cancelSpeech] else []
    ({ s with isAISpeaking := true }, cancelEffs ++ [Effect.speak text])

/-- Embedding of `processAndSendTranscript` (`src/App.tsx` lines 101-124).
The transcript is trimmed; if nonempty (and the chat session exists) the user
turn is appended, the backend is called, and on success the response turn is
appended and spoken while on failure an error banner is set and the fixed
fallback turn is appended and spoken; in every case the transcript
accumulator and interim transcript are reset.  `c1` and `c2` are the
`Date.now()` readings taken when the user turn and the response/fallback turn
are created. -/
def processAndSendTranscript (env : Env) (c1 c2 : Nat) (outcome : SendOutcome)
    (transcript : String) (s : AppState) : AppState × List Effect :=
  let trimmedTranscript := jsTrim transcript
  let r :=
    if trimmedTranscript ≠ "" ∧ s.chat = some () then
      let s1 := { s with
        messages := s.messages ++
          [({ id := Nat.repr c1, text := trimmedTranscript, sender := Sender.user, timestamp := c1 } : Message)],
        isLoadingAI := true }
      match getAIChatResponse env.apiKeyPresent outcome with
      | .ok aiResponseText =>
        let s2 := { s1 with
          messages := s1.messages ++
            [({ id := Nat.repr (c2 + 1), text := aiResponseText, sender := Sender.ai, timestamp := c2 } : Message)] }
        let sp := speakText env.ttsSupported aiResponseText s2
        ({ sp.1 with isLoadingAI := false }, Effect.backendSend trimmedTranscript :: sp.2)
      | .error em =>
        let errorMessage := "Error getting AI response: " ++ (if em = "" then "Unknown error" else em)
        let s2 := { s1 with
          error := some errorMessage,
          messages := s1.messages ++
            [({ id := Nat.repr (c2 + 1), text := fallbackMessage, sender := Sender.ai, timestamp := c2 } : Message)] }
        let sp := speakText env.ttsSupported fallbackMessage s2
        ({ sp.1 with isLoadingAI := false }, Effect.backendSend trimmedTranscript :: sp.2)
    else (s, [])
  ({ r.1 with userTranscript := "", interimTranscript := "" }, r.2)

/-- Embedding of the `recognition.onresult` handler (`src/App.tsx` lines
130-144): the event's new results (from `resultIndex` on) are folded left to
right, finals being appended (with a trailing space) to the running final
transcript and the interim transcript being rebuilt from the non-final
results. -/
def onResult (results : List SRResult) (s : AppState) : AppState :=
  let acc := results.foldl
    (fun (p : String × String) r =>
      if r.isFinal then (p.1 ++ r.transcript ++ " ", p.2) else (p.1, p.2 ++ r.transcript))
    (s.userTranscript, "")
  { s with userTranscript := acc.1, interimTranscript := acc.2 }

/-- Error banner text chosen by the `recognition.onerror` handler
(`src/App.tsx` lines 146-156) from the recognition error code. -/
def srErrorMessage (code : String) : String :=
  if code = "no-speech" then "I didn't hear anything. Please try speaking again."
  else if code = "audio-capture" then "Audio capture error. Please check your microphone."
  else if code = "not-allowed" then
    "Microphone access was denied. Please enable microphone permissions in your browser settings."
  else "Speech recognition error: " ++ code

/-- Embedding of the `recognition.onerror` handler (`src/App.tsx` lines
146-160): set the banner, stop recording, discard the accumulated transcript. -/
def onSRError (code : String) (s : AppState) : AppState :=
  { s with
    error := some (srErrorMessage code)
    isRecording := false
    userTranscript := ""
    interimTranscript := "" }

/-- Embedding of the `recognition.onend` handler (`src/App.tsx` lines
162-167).  The handler is installed only while `isRecording` is true, so at
every actual delivery its captured `isRecording` is true: it clears the
recording flag and hands the accumulated transcript to
`processAndSendTranscript`. -/
def onSREnd (env : Env) (c1 c2 : Nat) (outcome : SendOutcome) (s : AppState) :
    AppState × List Effect :=
  processAndSendTranscript env c1 c2 outcome s.userTranscript { s with isRecording := false }

/-- Embedding of `handleToggleRecording` (`src/App.tsx` lines 172-205).
`micGranted` is the outcome of the `getUserMedia` permission request and
`micErrName` the `err.name` of a failed request. -/
def handleToggleRecording (env : Env) (micGranted : Bool) (micErrName : String)
    (s : AppState) : AppState × List Effect :=
  if s.apiKeyMissing = true ∨ s.isInitialized = false ∨ env.recognitionAvailable = false ∨
      s.conversationStarted = false then
    let s1 := if env.recognitionAvailable = false then
      { s with error := some "Speech recognition is not available in your browser." } else s
    let s2 := if s.conversationStarted = false then
      { s1 with error := some "Please start the conversation first." } else s1
    (s2, [])
  else
    let cancel :=
      if s.isAISpeaking then ({ s with isAISpeaking := false }, [Effect.cancelSpeech])
      else (s, [])
    let s1 := cancel.1
    let cancelEffs := cancel.2
    if s1.isRecording then
      ({ s1 with isRecording := false }, cancelEffs ++ [Effect.stopRecognition])
    else
      if micGranted then
        ({ s1 with
            userTranscript := ""
            interimTranscript := ""
            isRecording := true
            recActive := true
            error := none },
          cancelEffs ++ [Effect.startRecognition])
      else
        let msg := if micErrName = "NotAllowedError" ∨ micErrName = "PermissionDeniedError" then
            "Microphone access denied. Please enable microphone permissions in your browser settings."
          else "Could not start recording. Please check microphone."
        ({ s1 with error := some msg, isRecording := false }, cancelEffs)

/-- Embedding of `handleStartConversation` (`src/App.tsx` lines 92-98): speak
the seed greeting when it is the first logged agent turn and the conversation
has not started yet, then mark the conversation started and clear the banner. -/
def handleStartConversation (env : Env) (s : AppState) : AppState × List Effect :=
  let r :=
    match s.messages with
    | m0 :: _ =>
      if m0.sender = Sender.ai ∧ s.conversationStarted = false then
        speakText env.ttsSupported m0.text s
      else (s, [])
    | [] => (s, [])
  ({ r.1 with conversationStarted := true, error := none }, r.2)

/-- The `disabled` condition of the microphone button (`src/App.tsx` line
278). -/
def micButtonDisabled (s : AppState) : Bool :=
  !s.isInitialized || s.isLoadingAI || s.apiKeyMissing || !s.conversationStarted ||
    (s.isRecording && s.interimTranscript == "" && s.userTranscript == "")

/-- Clicking the microphone button: a disabled button delivers no click, an
enabled one runs `handleToggleRecording`. -/
def clickMicButton (env : Env) (micGranted : Bool) (micErrName : String)
    (s : AppState) : AppState × List Effect :=
  if micButtonDisabled s then (s, [])
  else handleToggleRecording env micGranted micErrName s

/-- The render condition of the start-conversation button (`src/App.tsx` line
244). -/
def startButtonShown (s : AppState) : Bool :=
  s.isInitialized && !s.conversationStarted && !s.messages.isEmpty

/-- Clicking the start-conversation button: it is rendered only by
`startButtonShown` and carries `disabled={isAISpeaking}`. -/
def clickStartButton (env : Env) (s : AppState) : AppState × List Effect :=
  if startButtonShown s && !s.isAISpeaking then handleStartConversation env s
  else (s, [])

/-- Embedding of the mount-time effect (`src/App.tsx` lines 43-69): the
credential check followed by `initializeChat`.  `initOutcome` is the outcome
of `geminiService.createChatSession` and `c0` the `Date.now()` reading used
for the greeting turn. -/
def initApp (env : Env) (initOutcome : Except String Unit) (c0 : Nat) :
    AppState × List Effect :=
  if env.apiKeyPresent = false then
    ({ initialState with
        error := some "Critical Error: API_KEY is not configured. The application cannot function."
        apiKeyMissing := true
        isInitialized := false }, [])
  else
    match initOutcome with
    | .ok _ =>
      ({ initialState with
          chat := some ()
          messages :=
            [{ id := Nat.repr c0, text := initialMessageText, sender := Sender.ai, timestamp := c0 }]
          isInitialized := true }, [Effect.createSession])
    | .error em =>
      ({ initialState with
          error := some ("Initialization failed: " ++ (if em = "" then "Unknown error" else em) ++
            ". Please ensure your API key is valid and check network connection.")
          isInitialized := false }, [Effect.createSession])

/-- What the component renders at top level: the configuration-error view
replaces everything when the credential is missing (`src/App.tsx` lines
207-217); otherwise the main view with the banner, the bubbles, and the
control buttons. -/
inductive View where
  | configError (errorText : Option String)
  | main (banner : Option String) (bubbles : List Message)
      (startButton : Bool) (micButtonEnabled : Bool)
deriving DecidableEq

/-- Render function of the `App` component. -/
def render (s : AppState) : View :=
  if s.apiKeyMissing then View.configError s.error
  else
    View.main s.error
      (if s.isInitialized then s.messages else [])
      (startButtonShown s)
      (!micButtonDisabled s)

/-- Runtime events delivered to the controller after mount.  There is no
speech-start event here because `speakText` collapses `onstart` into the
speak call; the refined event type `EventA` below adds it. -/
inductive Event where
  | clickStart
  | clickMic (micGranted : Bool) (micErrName : String)
  | srResult (results : List SRResult)
  | srError (code : String)
  | srEnd (c1 c2 : Nat) (outcome : SendOutcome)
  | speechEnd
  | speechError (code : String)

/-- One step of the controller: dispatch an event to its handler.  Recognizer
callbacks are delivered only while a recognition session is active
(`recActive`); utterance callbacks only while an utterance is playing. -/
def step (env : Env) (e : Event) (s : AppState) : AppState × List Effect :=
  match e with
  | .clickStart => clickStartButton env s
  | .clickMic g n => clickMicButton env g n s
  | .srResult rs => if s.recActive then (onResult rs s, []) else (s, [])
  | .srError c => if s.recActive then (onSRError c s, []) else (s, [])
  | .srEnd c1 c2 o =>
    if s.recActive then onSREnd env c1 c2 o { s with recActive := false } else (s, [])
  | .speechEnd => if s.isAISpeaking then ({ s with isAISpeaking := false }, []) else (s, [])
  | .speechError c =>
    if s.isAISpeaking then
      ({ s with isAISpeaking := false, error := some ("Text-to-speech error: " ++ c) }, [])
    else (s, [])

/-- Folding a list of events through `step`, discarding effects. -/
def runEvents (env : Env) (evs : List Event) (s : AppState) : AppState :=
  evs.foldl (fun st e => (step env e st).1) s

/-- States reachable from some mount of the application. -/
inductive Reachable (env : Env) : AppState → Prop
  | init (initOutcome : Except String Unit) (c0 : Nat) :
      Reachable env (initApp env initOutcome c0).1
  | step (e : Event) {s : AppState} :
      Reachable env s → Reachable env (step env e s).1

/-- Folding a recording session's `onresult` events (each the list of new
results carried by one event) through the `onresult` handler. -/
def runResults (evs : List (List SRResult)) (s : AppState) : AppState :=
  evs.foldl (fun st ev => onResult ev st) s

/-- The finalized segments of a recording session, in arrival order. -/
def finalSegments (evs : List (List SRResult)) : List String :=
  (evs.flatten.filter (fun r => r.isFinal)).map (fun r => r.transcript)

/-- Concatenation of segments the way the `onresult` handler accumulates
them: each segment is followed by a single space. -/
def finalConcat (segs : List String) : String :=
  segs.foldl (fun acc t => acc ++ t ++ " ") ""

/-- Modelled from the spec: the plain concatenation of segments, with no
separator, as literally described by the sentence of testable property one
("the concatenation of all finalized segments (trimmed)").  Kept separate so
it can be compared against what the code computes. -/
def plainConcat (segs : List String) : String :=
  segs.foldl (fun acc t => acc ++ t) ""

/-- Banner text of a rendered view, when one is shown. -/
def View.bannerText : View → Option String
  | .configError t => t
  | .main b _ _ _ => b

/-- Fuel-free description of the digit list `Nat.toDigitsCore` produces at
base ten; used to prove that decimal formatting (`Nat.repr`, the `toString`
applied to `Date.now()` readings) is injective. -/
def decRep (n : Nat) : List Char :=
  if h : n < 10 then [Nat.digitChar (n % 10)]
  else decRep (n / 10) ++ [Nat.digitChar (n % 10)]
termination_by n
decreasing_by exact Nat.div_lt_self (by omega) (by omega)

/-- Environment with recognition, synthesis and the credential all available
(used to instantiate theorems at concrete inputs). -/
def envA : Env where
  recognitionAvailable := true
  ttsSupported := true
  apiKeyPresent := true

/-- Environment whose credential is absent. -/
def envB : Env where
  recognitionAvailable := true
  ttsSupported := true
  apiKeyPresent := false

/-- The state right after a successful mount under `envA`, with the greeting
turn created at clock reading zero. -/
def s0A : AppState := (initApp envA (Except.ok ()) 0).1

/-- A concrete event trace exhibiting a Turn-id collision: the agent turn of
the first exchange takes id `Nat.repr (100 + 1)` while the user turn of the
second exchange is created at clock reading `101`. -/
def c9Trace : List Event :=
  [Event.clickStart,
   Event.clickMic true "",
   Event.srResult [{ transcript := "hi", isFinal := true }],
   Event.srEnd 100 100 (SendOutcome.ok "fine"),
   Event.speechEnd,
   Event.clickMic true "",
   Event.srResult [{ transcript := "yo", isFinal := true }],
   Event.srEnd 101 200 (SendOutcome.ok "later")]

/-- The concrete two-final-segment session used to compare the accumulated
transcript with the spec's plain concatenation. -/
def c1Events : List (List SRResult) :=
  [[{ transcript := "a", isFinal := true }], [{ transcript := "b", isFinal := true }]]

/-!
### Refined machine with asynchronous utterance start

In the source, `isAISpeaking` becomes true only inside the utterance's
asynchronous `onstart` callback (`src/App.tsx` line 82), not at the
`speechSynthesis.speak` call itself.  The collapsed model above merges the
two, which erases the window between `speak()` and `onstart` in which the
React flag is still false.  The definitions below refine the machine: the
state additionally carries the utterance whose `onstart` has not yet fired,
`speakTextAsync` leaves `isAISpeaking` untouched, and a separate
`EventA.speechStart` event delivers `onstart`.  Under this refinement the
mutual-exclusion invariant of recording and playback fails: a microphone
click delivered inside the window passes the cancel guard of
`handleToggleRecording` (`src/App.tsx` line 179) without cancelling, starts
capture, and the subsequent `onstart` raises `isAISpeaking` while
`isRecording` is already true.
-/

/-- Refined machine state: the component state together with the utterance
requested by `speechSynthesis.speak` whose `onstart` callback has not yet
fired (`none` when no start is pending). -/
structure RtState where
  app : AppState
  pendingUtterance : Option String
deriving DecidableEq

/-- Refined `speakText`: identical to `speakText` except that the utterance
only becomes pending — `isAISpeaking` is set later, by `EventA.speechStart`
(the `onstart` callback), exactly as in `src/App.tsx` lines 71-90. -/
def speakTextAsync (ttsSupported : Bool) (text : String) (rs : RtState) : RtState × List Effect :=
  if ttsSupported = false then
    ({ rs with app := { rs.app with error := some "Text-to-Speech not supported in this browser." } }, [])
  else
    let cancelEffs := if rs.app.isAISpeaking then [Effect.cancelSpeech] else []
    ({ rs with pendingUtterance := some text }, cancelEffs ++ [Effect.speak text])

/-- Refined `processAndSendTranscript`: as `processAndSendTranscript` but
speaking through `speakTextAsync`. -/
def processAndSendTranscriptAsync (env : Env) (c1 c2 : Nat) (outcome : SendOutcome)
    (transcript : String) (rs : RtState) : RtState × List Effect :=
  let trimmedTranscript := jsTrim transcript
  let r :=
    if trimmedTranscript ≠ "" ∧ rs.app.chat = some () then
      let a1 := { rs.app with
        messages := rs.app.messages ++
          [({ id := Nat.repr c1, text := trimmedTranscript, sender := Sender.user, timestamp := c1 } : Message)],
        isLoadingAI := true }
      match getAIChatResponse env.apiKeyPresent outcome with
      | .ok aiResponseText =>
        let a2 := { a1 with
          messages := a1.messages ++
            [({ id := Nat.repr (c2 + 1), text := aiResponseText, sender := Sender.ai, timestamp := c2 } : Message)] }
        let sp := speakTextAsync env.ttsSupported aiResponseText { rs with app := a2 }
        ({ sp.1 with app := { sp.1.app with isLoadingAI := false } },
          Effect.backendSend trimmedTranscript :: sp.2)
      | .error em =>
        let errorMessage := "Error getting AI response: " ++ (if em = "" then "Unknown error" else em)
        let a2 := { a1 with
          error := some errorMessage,
          messages := a1.messages ++
            [({ id := Nat.repr (c2 + 1), text := fallbackMessage, sender := Sender.ai, timestamp := c2 } : Message)] }
        let sp := speakTextAsync env.ttsSupported fallbackMessage { rs with app := a2 }
        ({ sp.1 with app := { sp.1.app with isLoadingAI := false } },
          Effect.backendSend trimmedTranscript :: sp.2)
    else (rs, [])
  ({ r.1 with app := { r.1.app with userTranscript := "", interimTranscript := "" } }, r.2)

/-- Refined `handleToggleRecording`: as `handleToggleRecording`; when the
cancel guard fires, `speechSynthesis.cancel()` also drops a pending
utterance from the queue.  A pending utterance survives the guard precisely
when `isAISpeaking` is still false — the race window. -/
def handleToggleRecordingAsync (env : Env) (micGranted : Bool) (micErrName : String)
    (rs : RtState) : RtState × List Effect :=
  if rs.app.apiKeyMissing = true ∨ rs.app.isInitialized = false ∨
      env.recognitionAvailable = false ∨ rs.app.conversationStarted = false then
    let a1 := if env.recognitionAvailable = false then
      { rs.app with error := some "Speech recognition is not available in your browser." }
    else rs.app
    let a2 := if rs.app.conversationStarted = false then
      { a1 with error := some "Please start the conversation first." }
    else a1
    ({ rs with app := a2 }, [])
  else
    let cancel :=
      if rs.app.isAISpeaking then
        ({ rs with app := { rs.app with isAISpeaking := false }, pendingUtterance := none },
          [Effect.cancelSpeech])
      else (rs, [])
    let rs1 := cancel.1
    let cancelEffs := cancel.2
    if rs1.app.isRecording then
      ({ rs1 with app := { rs1.app with isRecording := false } },
        cancelEffs ++ [Effect.stopRecognition])
    else
      if micGranted then
        ({ rs1 with app := { rs1.app with
            userTranscript := ""
            interimTranscript := ""
            isRecording := true
            recActive := true
            error := none } },
          cancelEffs ++ [Effect.startRecognition])
      else
        let msg := if micErrName = "NotAllowedError" ∨ micErrName = "PermissionDeniedError" then
            "Microphone access denied. Please enable microphone permissions in your browser settings."
          else "Could not start recording. Please check microphone."
        ({ rs1 with app := { rs1.app with error := some msg, isRecording := false } }, cancelEffs)

/-- Refined `handleStartConversation`, speaking through `speakTextAsync`. -/
def handleStartConversationAsync (env : Env) (rs : RtState) : RtState × List Effect :=
  let r :=
    match rs.app.messages with
    | m0 :: _ =>
      if m0.sender = Sender.ai ∧ rs.app.conversationStarted = false then
        speakTextAsync env.ttsSupported m0.text rs
      else (rs, [])
    | [] => (rs, [])
  ({ r.1 with app := { r.1.app with conversationStarted := true, error := none } }, r.2)

/-- Refined `recognition.onend` handler. -/
def onSREndAsync (env : Env) (c1 c2 : Nat) (outcome : SendOutcome) (rs : RtState) :
    RtState × List Effect :=
  processAndSendTranscriptAsync env c1 c2 outcome rs.app.userTranscript
    { rs with app := { rs.app with isRecording := false } }

/-- Runtime events of the refined machine: the events of `Event` plus
`speechStart`, the delivery of an utterance's `onstart` callback. -/
inductive EventA where
  | clickStart
  | clickMic (micGranted : Bool) (micErrName : String)
  | srResult (results : List SRResult)
  | srError (code : String)
  | srEnd (c1 c2 : Nat) (outcome : SendOutcome)
  | speechStart
  | speechEnd
  | speechError (code : String)

/-- One step of the refined machine.  `speechStart` is deliverable while an
utterance start is pending; it raises `isAISpeaking` (`src/App.tsx` line 82)
and clears the pending slot. -/
def stepAsync (env : Env) (e : EventA) (rs : RtState) : RtState × List Effect :=
  match e with
  | .clickStart =>
    if startButtonShown rs.app && !rs.app.isAISpeaking then handleStartConversationAsync env rs
    else (rs, [])
  | .clickMic g n =>
    if micButtonDisabled rs.app then (rs, []) else handleToggleRecordingAsync env g n rs
  | .srResult results =>
    if rs.app.recActive then ({ rs with app := onResult results rs.app }, []) else (rs, [])
  | .srError c =>
    if rs.app.recActive then ({ rs with app := onSRError c rs.app }, []) else (rs, [])
  | .srEnd c1 c2 o =>
    if rs.app.recActive then
      onSREndAsync env c1 c2 o { rs with app := { rs.app with recActive := false } }
    else (rs, [])
  | .speechStart =>
    if rs.pendingUtterance.isSome then
      ({ rs with app := { rs.app with isAISpeaking := true }, pendingUtterance := none }, [])
    else (rs, [])
  | .speechEnd =>
    if rs.app.isAISpeaking then ({ rs with app := { rs.app with isAISpeaking := false } }, [])
    else (rs, [])
  | .speechError c =>
    if rs.app.isAISpeaking then
      ({ rs with app := { rs.app with
          isAISpeaking := false
          error := some ("Text-to-speech error: " ++ c) } }, [])
    else (rs, [])

/-- States reachable from some mount of the refined machine (no utterance is
pending at mount). -/
inductive ReachableAsync (env : Env) : RtState → Prop
  | init (initOutcome : Except String Unit) (c0 : Nat) :
      ReachableAsync env { app := (initApp env initOutcome c0).1, pendingUtterance := none }
  | step (e : EventA) {rs : RtState} :
      ReachableAsync env rs → ReachableAsync env (stepAsync env e rs).1

/-! ### Injectivity of decimal formatting -/

theorem digitChar_inj_lt : ∀ a < 10, ∀ b < 10, Nat.digitChar a = Nat.digitChar b → a = b := by
  decide

theorem decRep_ne_nil (n : Nat) : decRep n ≠ [] := by
  rw [decRep]
  split
  · simp
  · simp

theorem decRep_length_of_ge (n : Nat) (h : 10 ≤ n) : 2 ≤ (decRep n).length := by
  rw [decRep]
  rw [dif_neg (by omega)]
  have h1 := decRep_ne_nil (n / 10)
  have h2 : 1 ≤ (decRep (n / 10)).length := by
    cases hd : decRep (n / 10) with
    | nil => exact absurd hd h1
    | cons a l => simp
  simp only [List.length_append, List.length_cons, List.length_nil]
  omega

theorem decRep_injective : ∀ n m : Nat, decRep n = decRep m → n = m := by
  intro n
  induction n using Nat.strong_induction_on with
  | _ n ih =>
    intro m h
    by_cases hn : n < 10 <;> by_cases hm : m < 10
    · rw [decRep, dif_pos hn, decRep, dif_pos hm] at h
      have hc : Nat.digitChar (n % 10) = Nat.digitChar (m % 10) := by
        simpa using h
      have := digitChar_inj_lt (n % 10) (by omega) (m % 10) (by omega) hc
      omega
    · exfalso
      have hlen := congrArg List.length h
      rw [decRep, dif_pos hn] at hlen
      have h2 := decRep_length_of_ge m (by omega)
      simp only [List.length_cons, List.length_nil] at hlen
      omega
    · exfalso
      have hlen := congrArg List.length h.symm
      rw [decRep, dif_pos hm] at hlen
      have h2 := decRep_length_of_ge n (by omega)
      simp only [List.length_cons, List.length_nil] at hlen
      omega
    · rw [decRep, dif_neg hn] at h
      conv at h => rhs; rw [decRep]
      rw [dif_neg hm] at h
      have hsplit := List.append_inj' h (by simp)
      have h1 : n / 10 = m / 10 :=
        ih (n / 10) (Nat.div_lt_self (by omega) (by omega)) (m / 10) hsplit.1
      have hc : Nat.digitChar (n % 10) = Nat.digitChar (m % 10) := by
        have := hsplit.2
        simpa using this
      have h2 := digitChar_inj_lt (n % 10) (by omega) (m % 10) (by omega) hc
      omega

theorem toDigitsCore_eq_decRep :
    ∀ (f n : Nat) (ds : List Char), n < f →
      Nat.toDigitsCore 10 f n ds = decRep n ++ ds := by
  intro f
  induction f with
  | zero => intro n ds h; omega
  | succ f ih =>
    intro n ds h
    rw [Nat.toDigitsCore]
    by_cases h0 : n / 10 = 0
    · simp only [h0, if_pos]
      rw [decRep, dif_pos (by omega)]
      simp
    · have hlt : n / 10 < n := Nat.div_lt_self (by omega) (by omega)
      simp only [if_neg h0]
      rw [ih (n / 10) (Nat.digitChar (n % 10) :: ds) (by omega)]
      conv_rhs => rw [decRep]
      rw [dif_neg (show ¬ n < 10 by omega)]
      simp

theorem natRepr_injective {m n : Nat} (h : Nat.repr m = Nat.repr n) : m = n := by
  have hm : Nat.repr m = String.mk (decRep m) := by
    show (Nat.toDigits 10 m).asString = _
    rw [Nat.toDigits, toDigitsCore_eq_decRep (m + 1) m [] (by omega)]
    simp [List.asString]
  have hn : Nat.repr n = String.mk (decRep n) := by
    show (Nat.toDigits 10 n).asString = _
    rw [Nat.toDigits, toDigitsCore_eq_decRep (n + 1) n [] (by omega)]
    simp [List.asString]
  rw [hm, hn] at h
  have hd : decRep m = decRep n := congrArg String.data h
  exact decRep_injective m n hd

/-! ### Transcript accumulation and processing lemmas -/

theorem finalConcat_foldl_from (l : List String) (a : String) :
    l.foldl (fun acc t => acc ++ t ++ " ") a = a ++ finalConcat l := by
  induction l generalizing a with
  | nil => simp [finalConcat]
  | cons x xs ih =>
    rw [List.foldl_cons, ih]
    have hx : finalConcat (x :: xs) = ("" ++ x ++ " ") ++ finalConcat xs := by
      rw [finalConcat, List.foldl_cons, ih]
    rw [hx]
    simp [String.append_assoc]

theorem finalConcat_cons (x : String) (xs : List String) :
    finalConcat (x :: xs) = (x ++ " ") ++ finalConcat xs := by
  rw [finalConcat, List.foldl_cons, finalConcat_foldl_from]
  simp

theorem finalConcat_append (l1 l2 : List String) :
    finalConcat (l1 ++ l2) = finalConcat l1 ++ finalConcat l2 := by
  rw [finalConcat, List.foldl_append, ← finalConcat, finalConcat_foldl_from]

theorem onResult_foldl (rs : List SRResult) (a b : String) :
    (rs.foldl
      (fun (p : String × String) r =>
        if r.isFinal then (p.1 ++ r.transcript ++ " ", p.2) else (p.1, p.2 ++ r.transcript))
      (a, b)).1
      = a ++ finalConcat ((rs.filter (fun r => r.isFinal)).map (fun r => r.transcript)) := by
  induction rs generalizing a b with
  | nil => simp [finalConcat]
  | cons r rs ih =>
    rw [List.foldl_cons]
    by_cases hf : r.isFinal = true
    · simp only [hf, if_true]
      rw [ih]
      simp [List.filter_cons, hf, finalConcat_cons, String.append_assoc]
    · simp only [if_neg hf]
      rw [ih]
      simp [List.filter_cons, hf]

theorem onResult_userTranscript (rs : List SRResult) (s : AppState) :
    (onResult rs s).userTranscript =
      s.userTranscript ++
        finalConcat ((rs.filter (fun r => r.isFinal)).map (fun r => r.transcript)) := by
  simp only [onResult]
  exact onResult_foldl rs s.userTranscript ""

theorem onResult_chat (rs : List SRResult) (s : AppState) :
    (onResult rs s).chat = s.chat := by
  simp [onResult]

theorem runResults_userTranscript (evs : List (List SRResult)) (s : AppState) :
    (runResults evs s).userTranscript = s.userTranscript ++ finalConcat (finalSegments evs) := by
  induction evs generalizing s with
  | nil => simp [runResults, finalSegments, finalConcat]
  | cons ev evs ih =>
    rw [runResults, List.foldl_cons, ← runResults, ih, onResult_userTranscript]
    have hseg : finalSegments (ev :: evs) =
        ((ev.filter (fun r => r.isFinal)).map (fun r => r.transcript)) ++ finalSegments evs := by
      simp [finalSegments]
    rw [hseg, finalConcat_append, String.append_assoc]

theorem runResults_chat (evs : List (List SRResult)) (s : AppState) :
    (runResults evs s).chat = s.chat := by
  induction evs generalizing s with
  | nil => simp [runResults]
  | cons ev evs ih =>
    rw [runResults, List.foldl_cons, ← runResults, ih, onResult_chat]

theorem failedMsg_ne_empty (m : String) : ("Failed to get AI response: " ++ m) ≠ "" := by
  intro h
  have hlen := congrArg String.length h
  rw [String.length_append] at hlen
  have h27 : ("Failed to get AI response: " : String).length = 27 := by decide
  have h0 : ("" : String).length = 0 := by decide
  omega

theorem process_err_eq (env : Env) (c1 c2 : Nat) (m t : String) (s : AppState)
    (hk : env.apiKeyPresent = true) (htts : env.ttsSupported = true)
    (hsp : s.isAISpeaking = false)
    (ht : jsTrim t ≠ "") (hc : s.chat = some ()) :
    processAndSendTranscript env c1 c2 (SendOutcome.err m) t s =
      ({ s with
          messages := s.messages ++
            [({ id := Nat.repr c1, text := jsTrim t, sender := Sender.user, timestamp := c1 } : Message),
             ({ id := Nat.repr (c2 + 1), text := fallbackMessage, sender := Sender.ai, timestamp := c2 } : Message)],
          error := some ("Error getting AI response: " ++ ("Failed to get AI response: " ++ m)),
          isAISpeaking := true,
          isLoadingAI := false,
          userTranscript := "",
          interimTranscript := "" },
        [Effect.backendSend (jsTrim t), Effect.speak fallbackMessage]) := by
  cases s
  simp only [processAndSendTranscript, getAIChatResponse, speakText, hk, htts] at *
  simp [ht, hc, hsp, failedMsg_ne_empty m]

theorem process_ok_eq (env : Env) (c1 c2 : Nat) (r t : String) (s : AppState)
    (hk : env.apiKeyPresent = true) (htts : env.ttsSupported = true)
    (hsp : s.isAISpeaking = false)
    (ht : jsTrim t ≠ "") (hc : s.chat = some ()) :
    processAndSendTranscript env c1 c2 (SendOutcome.ok r) t s =
      ({ s with
          messages := s.messages ++
            [({ id := Nat.repr c1, text := jsTrim t, sender := Sender.user, timestamp := c1 } : Message),
             ({ id := Nat.repr (c2 + 1), text := r, sender := Sender.ai, timestamp := c2 } : Message)],
          isAISpeaking := true,
          isLoadingAI := false,
          userTranscript := "",
          interimTranscript := "" },
        [Effect.backendSend (jsTrim t), Effect.speak r]) := by
  cases s
  simp only [processAndSendTranscript, getAIChatResponse, speakText, hk, htts] at *
  simp [ht, hc, hsp]

theorem process_trim_empty (env : Env) (c1 c2 : Nat) (o : SendOutcome) (t : String)
    (s : AppState) (ht : jsTrim t = "") :
    processAndSendTranscript env c1 c2 o t s =
      ({ s with userTranscript := "", interimTranscript := "" }, []) := by
  cases s
  simp [processAndSendTranscript, ht]

theorem process_messages_extend (env : Env) (c1 c2 : Nat) (o : SendOutcome) (t : String)
    (s : AppState) :
    ∃ tail, (processAndSendTranscript env c1 c2 o t s).1.messages = s.messages ++ tail := by
  by_cases hcond : jsTrim t ≠ "" ∧ s.chat = some ()
  · obtain ⟨ht, hc⟩ := hcond
    cases hg : getAIChatResponse env.apiKeyPresent o with
    | ok r =>
      all_goals cases s
      all_goals simp at hc
      all_goals by_cases htts : env.ttsSupported = false
      all_goals refine ⟨[⟨Nat.repr c1, jsTrim t, Sender.user, c1⟩, ⟨Nat.repr (c2 + 1), r, Sender.ai, c2⟩], ?_⟩
      all_goals simp [processAndSendTranscript, speakText, ht, hc, hg, htts]
    | error em =>
      all_goals cases s
      all_goals simp at hc
      all_goals by_cases htts : env.ttsSupported = false
      all_goals refine ⟨[⟨Nat.repr c1, jsTrim t, Sender.user, c1⟩, ⟨Nat.repr (c2 + 1), fallbackMessage, Sender.ai, c2⟩], ?_⟩
      all_goals simp [processAndSendTranscript, speakText, ht, hc, hg, htts]
  · exact ⟨[], by
      cases s; simp at hcond
      simp only [processAndSendTranscript]
      rw [if_neg (fun h => hcond h.1 h.2)]
      simp⟩

theorem process_flags (env : Env) (c1 c2 : Nat) (o : SendOutcome) (t : String)
    (s : AppState) :
    (processAndSendTranscript env c1 c2 o t s).1.isRecording = s.isRecording ∧
    (processAndSendTranscript env c1 c2 o t s).1.conversationStarted = s.conversationStarted := by
  by_cases hcond : jsTrim t ≠ "" ∧ s.chat = some ()
  · obtain ⟨ht, hc⟩ := hcond
    cases hg : getAIChatResponse env.apiKeyPresent o with
    | ok r =>
      by_cases htts : env.ttsSupported = false
      · cases s; simp at hc; simp [processAndSendTranscript, speakText, ht, hc, hg, htts]
      · cases s; simp at hc; simp [processAndSendTranscript, speakText, ht, hc, hg, htts]
    | error em =>
      by_cases htts : env.ttsSupported = false
      · cases s; simp at hc; simp [processAndSendTranscript, speakText, ht, hc, hg, htts]
      · cases s; simp at hc; simp [processAndSendTranscript, speakText, ht, hc, hg, htts]
  · cases s; simp at hcond
    simp only [processAndSendTranscript]
    rw [if_neg (fun h => hcond h.1 h.2)]
    simp

/-! ### State-machine invariant lemmas -/

theorem speakText_isRecording (b : Bool) (t : String) (s : AppState) :
    (speakText b t s).1.isRecording = s.isRecording := by
  unfold speakText
  split <;> simp

theorem speakText_started (b : Bool) (t : String) (s : AppState) :
    (speakText b t s).1.conversationStarted = s.conversationStarted := by
  unfold speakText
  split <;> simp

theorem handleStart_isRecording (env : Env) (s : AppState) :
    (handleStartConversation env s).1.isRecording = s.isRecording := by
  unfold handleStartConversation
  cases hm : s.messages with
  | nil => simp
  | cons m0 ms =>
    by_cases hc : m0.sender = Sender.ai ∧ s.conversationStarted = false
    · simp [hc, speakText_isRecording]
    · simp [hc]

theorem handleStart_started (env : Env) (s : AppState) :
    (handleStartConversation env s).1.conversationStarted = true := by
  unfold handleStartConversation
  cases hm : s.messages with
  | nil => simp
  | cons m0 ms =>
    by_cases hc : m0.sender = Sender.ai ∧ s.conversationStarted = false
    · simp [hc]
    · simp [hc]

theorem handleToggle_inv (env : Env) (g : Bool) (n : String) (s : AppState)
    (h1 : ¬(s.isRecording = true ∧ s.isAISpeaking = true))
    (h2 : s.isRecording = true → s.conversationStarted = true) :
    (¬((handleToggleRecording env g n s).1.isRecording = true ∧
        (handleToggleRecording env g n s).1.isAISpeaking = true)) ∧
    ((handleToggleRecording env g n s).1.isRecording = true →
        (handleToggleRecording env g n s).1.conversationStarted = true) := by
  unfold handleToggleRecording
  split
  case isTrue hguard =>
    split <;> split <;> simp_all
  case isFalse hguard =>
    have hst : s.conversationStarted = true := by
      simp only [not_or] at hguard
      have := hguard.2.2.2
      simpa using this
    by_cases hsp : s.isAISpeaking = true
    · simp only [hsp, if_true]
      by_cases hr : s.isRecording = true
      · simp [hr, hst]
      · simp only [Bool.not_eq_true] at hr
        simp only [hr]
        split
        · simp [hst]
        · split <;> simp [hst]
    · simp only [Bool.not_eq_true] at hsp
      simp only [hsp, Bool.false_eq_true, if_false]
      by_cases hr : s.isRecording = true
      · simp [hr, hst]
      · simp only [Bool.not_eq_true] at hr
        simp only [hr]
        split
        · simp [hst, hsp]
        · split <;> simp [hst, hsp]

theorem initApp_flags (env : Env) (o : Except String Unit) (c0 : Nat) :
    (initApp env o c0).1.isRecording = false ∧ (initApp env o c0).1.isAISpeaking = false := by
  unfold initApp
  split
  · simp [initialState]
  · cases o <;> simp [initialState]

theorem step_inv (env : Env) (e : Event) (s : AppState)
    (h1 : ¬(s.isRecording = true ∧ s.isAISpeaking = true))
    (h2 : s.isRecording = true → s.conversationStarted = true) :
    (¬((step env e s).1.isRecording = true ∧ (step env e s).1.isAISpeaking = true)) ∧
    ((step env e s).1.isRecording = true → (step env e s).1.conversationStarted = true) := by
  cases e with
  | clickStart =>
    simp only [step, clickStartButton]
    split
    case isTrue hcond =>
      have hcs : s.conversationStarted = false := by
        simp [startButtonShown] at hcond
        tauto
      have hrec : s.isRecording = false := by
        cases hr : s.isRecording
        · rfl
        · exact absurd (h2 hr) (by simp [hcs])
      constructor
      · rw [handleStart_isRecording]
        simp [hrec]
      · rw [handleStart_isRecording, handleStart_started]
        simp [hrec]
    case isFalse hcond => exact ⟨h1, h2⟩
  | clickMic g n =>
    simp only [step, clickMicButton]
    split
    · exact ⟨h1, h2⟩
    · exact handleToggle_inv env g n s h1 h2
  | srResult rs =>
    simp only [step]
    split
    · exact ⟨by simpa [onResult] using h1, by simpa [onResult] using h2⟩
    · exact ⟨h1, h2⟩
  | srError c =>
    simp only [step]
    split
    · simp [onSRError]
    · exact ⟨h1, h2⟩
  | srEnd c1 c2 o =>
    simp only [step, onSREnd]
    split
    · have hf := process_flags env c1 c2 o
        ({ s with recActive := false, isRecording := false }).userTranscript
        { s with recActive := false, isRecording := false }
      rcases hf with ⟨hfr, hfc⟩
      simp only [] at hfr
      constructor
      · intro hc
        rw [hfr] at hc
        simp at hc
      · intro hc
        rw [hfr] at hc
        simp at hc
    · exact ⟨h1, h2⟩
  | speechEnd =>
    simp only [step]
    split
    · exact ⟨by simp, h2⟩
    · exact ⟨h1, h2⟩
  | speechError c =>
    simp only [step]
    split
    · exact ⟨by simp, h2⟩
    · exact ⟨h1, h2⟩

theorem reachable_flags_inv (env : Env) (s : AppState) (h : Reachable env s) :
    (¬(s.isRecording = true ∧ s.isAISpeaking = true)) ∧
    (s.isRecording = true → s.conversationStarted = true) := by
  induction h with
  | init o c0 =>
    have hf := initApp_flags env o c0
    refine ⟨fun hc => ?_, fun hc => ?_⟩
    · rw [hf.1] at hc
      simp at hc
    · rw [hf.1] at hc
      simp at hc
  | step e hs ih => exact step_inv env e _ ih.1 ih.2

theorem process_errNonError_eq (env : Env) (c1 c2 : Nat) (t : String) (s : AppState)
    (hk : env.apiKeyPresent = true) (htts : env.ttsSupported = true)
    (hsp : s.isAISpeaking = false)
    (ht : jsTrim t ≠ "") (hc : s.chat = some ()) :
    processAndSendTranscript env c1 c2 SendOutcome.errNonError t s =
      ({ s with
          messages := s.messages ++
            [({ id := Nat.repr c1, text := jsTrim t, sender := Sender.user, timestamp := c1 } : Message),
             ({ id := Nat.repr (c2 + 1), text := fallbackMessage, sender := Sender.ai, timestamp := c2 } : Message)],
          error := some ("Error getting AI response: " ++
            "Failed to get AI response due to an unknown error."),
          isAISpeaking := true,
          isLoadingAI := false,
          userTranscript := "",
          interimTranscript := "" },
        [Effect.backendSend (jsTrim t), Effect.speak fallbackMessage]) := by
  cases s
  simp only [processAndSendTranscript, getAIChatResponse, speakText, hk, htts] at *
  simp [ht, hc, hsp]

theorem speakText_messages (b : Bool) (t : String) (s : AppState) :
    (speakText b t s).1.messages = s.messages := by
  unfold speakText
  split <;> simp

theorem handleStart_messages (env : Env) (s : AppState) :
    (handleStartConversation env s).1.messages = s.messages := by
  unfold handleStartConversation
  cases hm : s.messages with
  | nil => simp [hm]
  | cons m0 ms =>
    by_cases hc : m0.sender = Sender.ai ∧ s.conversationStarted = false
    · simp [hc, speakText_messages, hm]
    · simp [hc, hm]

theorem handleToggle_messages (env : Env) (g : Bool) (n : String) (s : AppState) :
    (handleToggleRecording env g n s).1.messages = s.messages := by
  unfold handleToggleRecording
  by_cases h0 : s.apiKeyMissing = true ∨ s.isInitialized = false ∨
      env.recognitionAvailable = false ∨ s.conversationStarted = false
  · rw [if_pos h0]
    by_cases h1 : env.recognitionAvailable = false <;>
      by_cases h2 : s.conversationStarted = false <;>
        simp [h1, h2]
  · rw [if_neg h0]
    by_cases hsp : s.isAISpeaking = true <;>
      by_cases hr : s.isRecording = true <;>
        by_cases hg : g = true <;>
          simp [hsp, hr, hg]

theorem process_messages_ids (env : Env) (c1 c2 : Nat) (o : SendOutcome) (t : String)
    (s : AppState) (ht : jsTrim t ≠ "") (hc : s.chat = some ()) :
    (processAndSendTranscript env c1 c2 o t s).1.messages.map Message.id =
      s.messages.map Message.id ++ [Nat.repr c1, Nat.repr (c2 + 1)] := by
  cases hg : getAIChatResponse env.apiKeyPresent o with
  | ok r =>
    by_cases htts : env.ttsSupported = false
    all_goals cases s
    all_goals simp at hc
    all_goals simp [processAndSendTranscript, speakText, ht, hc, hg, htts]
  | error em =>
    by_cases htts : env.ttsSupported = false
    all_goals cases s
    all_goals simp at hc
    all_goals simp [processAndSendTranscript, speakText, ht, hc, hg, htts]

/-! ### Claims -/

/-- C2: at most one backend request is outstanding at any time.  In every
state in which a backend request is pending (`isLoadingAI = true`) — in
particular every reachable such state — the microphone button is disabled, so
clicking the microphone toggle leaves the state unchanged and produces no
effect: no recording starts and no second backend request is issued. -/
theorem c2_toggle_noop_while_loading (env : Env) (g : Bool) (n : String) (s : AppState)
    (h : s.isLoadingAI = true) :
    clickMicButton env g n s = (s, []) := by
  have hd : micButtonDisabled s = true := by
    simp [micButtonDisabled, h]
  simp [clickMicButton, hd]

/-- C2 witness: a concrete loading state on which the toggle is a no-op. -/
theorem c2_witness :
    ({ s0A with isLoadingAI := true } : AppState).isLoadingAI = true ∧
    clickMicButton envA true "NotAllowedError" { s0A with isLoadingAI := true } =
      ({ s0A with isLoadingAI := true }, []) :=
  ⟨rfl, c2_toggle_noop_while_loading envA true "NotAllowedError" { s0A with isLoadingAI := true } rfl⟩

/-- C4: a recording session whose accumulated finalized transcript trims to
empty produces, on recording end, no backend call and no new Turn: the
handler only clears the recording flag and resets the transcript accumulator
and interim transcript, leaving every other field (log, loading flag, and so
on) unchanged, i.e. the machine is back in its idle configuration. -/
theorem c4_empty_transcript_idle (env : Env) (c1 c2 : Nat) (o : SendOutcome)
    (s : AppState) (ht : jsTrim s.userTranscript = "") :
    onSREnd env c1 c2 o s =
      ({ s with isRecording := false, userTranscript := "", interimTranscript := "" }, []) := by
  unfold onSREnd
  rw [process_trim_empty env c1 c2 o s.userTranscript { s with isRecording := false } ht]

/-- C4 witness: ending a recording that heard only whitespace. -/
theorem c4_witness :
    jsTrim ({ s0A with
        conversationStarted := true, isRecording := true, recActive := true,
        userTranscript := "   " } : AppState).userTranscript = "" ∧
    onSREnd envA 7 7 (SendOutcome.ok "unused")
        { s0A with
          conversationStarted := true, isRecording := true, recActive := true,
          userTranscript := "   " } =
      ({ s0A with
          conversationStarted := true, isRecording := false, recActive := true,
          userTranscript := "", interimTranscript := "" }, []) :=
  ⟨by decide,
   c4_empty_transcript_idle envA 7 7 (SendOutcome.ok "unused")
     { s0A with
       conversationStarted := true, isRecording := true, recActive := true,
       userTranscript := "   " } (by decide)⟩

/-- C10: starting the conversation is idempotent with respect to speech.
Once `conversationStarted` holds, invoking `handleStartConversation` speaks
nothing and changes no state besides clearing the error banner; on the first
invocation (conversation not yet started, the seed greeting logged as first
agent turn, synthesis available, no playback running) the greeting is spoken
exactly once. -/
theorem c10_start_conversation_idempotent (env : Env) (s : AppState) :
    (s.conversationStarted = true →
      handleStartConversation env s = ({ s with error := none }, [])) ∧
    (∀ m0 ms, s.conversationStarted = false → s.messages = m0 :: ms →
      m0.sender = Sender.ai → env.ttsSupported = true → s.isAISpeaking = false →
      handleStartConversation env s =
        ({ s with isAISpeaking := true, conversationStarted := true, error := none },
          [Effect.speak m0.text])) := by
  constructor
  · intro h
    unfold handleStartConversation
    cases hm : s.messages with
    | nil => simp [hm, AppState.mk.injEq, h]
    | cons m0 ms => simp [hm, h, AppState.mk.injEq]
  · intro m0 ms h0 hm hsender htts hsp
    unfold handleStartConversation
    rw [hm]
    simp [hsender, h0, speakText, htts, hsp, hm]

/-- C10 witness: under `envA`, the second invocation only clears the banner,
while the first speaks the greeting. -/
theorem c10_witness :
    handleStartConversation envA { s0A with conversationStarted := true } =
      ({ s0A with conversationStarted := true, error := none }, []) ∧
    handleStartConversation envA s0A =
      ({ s0A with isAISpeaking := true, conversationStarted := true, error := none },
        [Effect.speak initialMessageText]) := by
  constructor
  · exact (c10_start_conversation_idempotent envA _).1 rfl
  · exact (c10_start_conversation_idempotent envA s0A).2
      ⟨Nat.repr 0, initialMessageText, Sender.ai, 0⟩ [] rfl rfl rfl rfl rfl

/-- C3 (amended): recording and playback do not overlap under synchronous
utterance start.  First, provided each utterance's `onstart` callback is
delivered together with the speak call (the collapsed `step` machine), no
reachable state has `isRecording` and `isAISpeaking` both true.  Second —
unconditionally — when the microphone toggle starts a capture while the
playback flag is set, the cancel signal is emitted before the recognizer is
started and capture begins with the playback flag already cleared.  The
proviso is necessary: in the faithful asynchronous machine (`stepAsync`,
where `onstart` is its own event) a microphone click delivered between the
speak request and `onstart` skips the cancel guard and the invariant fails —
see the counterexample. -/
theorem c3_no_audio_overlap :
    (∀ (env : Env) (s : AppState), Reachable env s →
      ¬(s.isRecording = true ∧ s.isAISpeaking = true)) ∧
    (∀ (env : Env) (n : String) (s : AppState),
      env.recognitionAvailable = true → s.apiKeyMissing = false → s.isInitialized = true →
      s.conversationStarted = true → s.isRecording = false → s.isAISpeaking = true →
      (handleToggleRecording env true n s).2 = [Effect.cancelSpeech, Effect.startRecognition] ∧
      (handleToggleRecording env true n s).1.isAISpeaking = false ∧
      (handleToggleRecording env true n s).1.isRecording = true) := by
  constructor
  · intro env s h
    exact (reachable_flags_inv env s h).1
  · intro env n s hra hak hini hcs hr hsp
    unfold handleToggleRecording
    rw [if_neg (by simp [hak, hini, hra, hcs])]
    simp [hsp, hr]

/-- C3 witness: the freshly mounted state is reachable and overlap-free, and
toggling from a concrete speaking state cancels then starts. -/
theorem c3_witness :
    (¬(s0A.isRecording = true ∧ s0A.isAISpeaking = true)) ∧
    ((handleToggleRecording envA true "X"
        { s0A with conversationStarted := true, isAISpeaking := true }).2 =
      [Effect.cancelSpeech, Effect.startRecognition]) := by
  constructor
  · exact c3_no_audio_overlap.1 envA s0A (Reachable.init (Except.ok ()) 0)
  · exact (c3_no_audio_overlap.2 envA "X"
      { s0A with conversationStarted := true, isAISpeaking := true }
      rfl rfl rfl rfl rfl rfl).1

/-- C7: when the credential is absent at startup the controller enters the
terminal configuration-error state: the banner is the critical-error text, no
chat session is created (no `createSession` effect, `chat = none`), no
greeting is logged, only the configuration-error view is rendered, and every
subsequent event leaves the state unchanged with no effects. -/
theorem c7_missing_credential_terminal (env : Env) (o : Except String Unit) (c0 : Nat)
    (h : env.apiKeyPresent = false) :
    (initApp env o c0).1 = { initialState with
      error := some "Critical Error: API_KEY is not configured. The application cannot function.",
      apiKeyMissing := true } ∧
    (initApp env o c0).2 = [] ∧
    (initApp env o c0).1.chat = none ∧
    (initApp env o c0).1.messages = [] ∧
    render (initApp env o c0).1 =
      View.configError
        (some "Critical Error: API_KEY is not configured. The application cannot function.") ∧
    (∀ e, step env e (initApp env o c0).1 = ((initApp env o c0).1, [])) := by
  have h1 : (initApp env o c0).1 = { initialState with
      error := some "Critical Error: API_KEY is not configured. The application cannot function.",
      apiKeyMissing := true } := by
    simp [initApp, h, initialState]
  refine ⟨h1, ?_, ?_, ?_, ?_, ?_⟩
  · simp [initApp, h]
  · rw [h1]
    simp [initialState]
  · rw [h1]
    simp [initialState]
  · rw [h1]
    simp [render, initialState, startButtonShown, micButtonDisabled]
  · intro e
    rw [h1]
    cases e <;>
      simp [step, clickStartButton, startButtonShown, clickMicButton, micButtonDisabled,
        initialState]

/-- C7 witness: a concrete credential-less environment. -/
theorem c7_witness :
    (initApp envB (Except.ok ()) 0).1 = { initialState with
      error := some "Critical Error: API_KEY is not configured. The application cannot function.",
      apiKeyMissing := true } ∧
    (initApp envB (Except.ok ()) 0).2 = [] ∧
    step envB Event.clickStart (initApp envB (Except.ok ()) 0).1 =
      ((initApp envB (Except.ok ()) 0).1, []) := by
  have h := c7_missing_credential_terminal envB (Except.ok ()) 0 rfl
  exact ⟨h.1, h.2.1, h.2.2.2.2.2 Event.clickStart⟩

/-- C5: every backend failure produces exactly one fallback apology Turn,
appended after the user Turn and handed to speech output exactly once, sets
the error banner exactly once (to the AI-response error message), and leaves
the machine speaking with the loading flag cleared — the conversation never
stalls on the failed request. -/
theorem c5_backend_failure_fallback (env : Env) (c1 c2 : Nat) (o : SendOutcome)
    (t : String) (s : AppState)
    (hk : env.apiKeyPresent = true) (htts : env.ttsSupported = true)
    (hsp : s.isAISpeaking = false) (hc : s.chat = some ()) (ht : jsTrim t ≠ "")
    (hfail : o.isOk = false) :
    ∃ em, em ≠ "" ∧
      processAndSendTranscript env c1 c2 o t s =
        ({ s with
            messages := s.messages ++
              [({ id := Nat.repr c1, text := jsTrim t, sender := Sender.user, timestamp := c1 } : Message),
               ({ id := Nat.repr (c2 + 1), text := fallbackMessage, sender := Sender.ai, timestamp := c2 } : Message)],
            error := some ("Error getting AI response: " ++ em),
            isAISpeaking := true,
            isLoadingAI := false,
            userTranscript := "",
            interimTranscript := "" },
          [Effect.backendSend (jsTrim t), Effect.speak fallbackMessage]) := by
  cases o with
  | ok r => simp [SendOutcome.isOk] at hfail
  | err m =>
    exact ⟨"Failed to get AI response: " ++ m, failedMsg_ne_empty m,
      process_err_eq env c1 c2 m t s hk htts hsp ht hc⟩
  | errNonError =>
    exact ⟨"Failed to get AI response due to an unknown error.", by decide,
      process_errNonError_eq env c1 c2 t s hk htts hsp ht hc⟩

/-- C5 witness: a concrete rejected exchange. -/
theorem c5_witness :
    jsTrim "hello" ≠ "" ∧
    (∃ em, em ≠ "" ∧
      processAndSendTranscript envA 100 100 (SendOutcome.err "boom") "hello" s0A =
        ({ s0A with
            messages := s0A.messages ++
              [({ id := Nat.repr 100, text := jsTrim "hello", sender := Sender.user, timestamp := 100 } : Message),
               ({ id := Nat.repr (100 + 1), text := fallbackMessage, sender := Sender.ai, timestamp := 100 } : Message)],
            error := some ("Error getting AI response: " ++ em),
            isAISpeaking := true,
            isLoadingAI := false,
            userTranscript := "",
            interimTranscript := "" },
          [Effect.backendSend (jsTrim "hello"), Effect.speak fallbackMessage])) :=
  ⟨by decide,
   c5_backend_failure_fallback envA 100 100 (SendOutcome.err "boom") "hello" s0A
     rfl rfl rfl rfl (by decide) rfl⟩

/-- C6 (amended): when the backend call is rejected with a network error, the
log gains the fixed fallback apology Turn — whose text (not the banner)
contains the substring "issue" — the banner is set to the AI-response error
message wrapping the rejection message, and the machine transitions to
Speaking and, once playback ends, back to the idle configuration. -/
theorem c6_network_error_flow (env : Env) (c1 c2 : Nat) (m t : String) (s : AppState)
    (hk : env.apiKeyPresent = true) (htts : env.ttsSupported = true)
    (hsp : s.isAISpeaking = false) (hc : s.chat = some ()) (ht : jsTrim t ≠ "")
    (hr : s.isRecording = false) :
    (processAndSendTranscript env c1 c2 (SendOutcome.err m) t s).1.messages =
      s.messages ++
        [({ id := Nat.repr c1, text := jsTrim t, sender := Sender.user, timestamp := c1 } : Message),
         ({ id := Nat.repr (c2 + 1), text := fallbackMessage, sender := Sender.ai, timestamp := c2 } : Message)] ∧
    strContains fallbackMessage "issue" = true ∧
    (processAndSendTranscript env c1 c2 (SendOutcome.err m) t s).1.error =
      some ("Error getting AI response: " ++ ("Failed to get AI response: " ++ m)) ∧
    (processAndSendTranscript env c1 c2 (SendOutcome.err m) t s).1.isAISpeaking = true ∧
    (step env Event.speechEnd
        (processAndSendTranscript env c1 c2 (SendOutcome.err m) t s).1).1.isAISpeaking = false ∧
    (step env Event.speechEnd
        (processAndSendTranscript env c1 c2 (SendOutcome.err m) t s).1).1.isLoadingAI = false ∧
    (step env Event.speechEnd
        (processAndSendTranscript env c1 c2 (SendOutcome.err m) t s).1).1.isRecording = false := by
  have hp := process_err_eq env c1 c2 m t s hk htts hsp ht hc
  rw [hp]
  refine ⟨by simp, by decide, by simp, by simp, ?_, ?_, ?_⟩ <;> simp [step, hr]

/-- C6 witness: a concrete network rejection, followed through to idle. -/
theorem c6_witness :
    jsTrim "hello" ≠ "" ∧
    (processAndSendTranscript envA 100 100 (SendOutcome.err "network failure") "hello" s0A).1.error =
      some ("Error getting AI response: " ++ ("Failed to get AI response: " ++ "network failure")) ∧
    (step envA Event.speechEnd
        (processAndSendTranscript envA 100 100 (SendOutcome.err "network failure") "hello" s0A).1).1.isAISpeaking =
      false := by
  have h := c6_network_error_flow envA 100 100 "network failure" "hello" s0A
    rfl rfl rfl rfl (by decide) rfl
  exact ⟨by decide, h.2.2.1, h.2.2.2.2.1⟩

/-- C6 counterexample: the claim as stated is false — on a concrete network
rejection the rendered banner text does not contain "issue" (only the fallback
Turn's text does). -/
theorem c6_counterexample :
    (processAndSendTranscript envA 100 100 (SendOutcome.err "network failure") "hello" s0A).1.error =
      some "Error getting AI response: Failed to get AI response: network failure" ∧
    (render (processAndSendTranscript envA 100 100 (SendOutcome.err "network failure") "hello" s0A).1).bannerText =
      some "Error getting AI response: Failed to get AI response: network failure" ∧
    strContains "Error getting AI response: Failed to get AI response: network failure" "issue" = false ∧
    strContains fallbackMessage "issue" = true := by
  decide

/-- C1 (amended): over any recording session, the accumulated final
transcript equals the space-suffixed concatenation of the finalized segments
in arrival order — partial (not-yet-final) segments contribute nothing — and
the text handed to the backend on recording end is that concatenation,
whitespace-trimmed. -/
theorem c1_final_transcript_sent (env : Env) (evs : List (List SRResult)) (s : AppState)
    (c1 c2 : Nat) (o : SendOutcome)
    (hu : s.userTranscript = "") (hc : s.chat = some ())
    (ht : jsTrim (finalConcat (finalSegments evs)) ≠ "") :
    (runResults evs s).userTranscript = finalConcat (finalSegments evs) ∧
    (onSREnd env c1 c2 o (runResults evs s)).2.head? =
      some (Effect.backendSend (jsTrim (finalConcat (finalSegments evs)))) := by
  have h1 : (runResults evs s).userTranscript = finalConcat (finalSegments evs) := by
    rw [runResults_userTranscript, hu, String.empty_append]
  refine ⟨h1, ?_⟩
  unfold onSREnd
  have hc2 : ({ runResults evs s with isRecording := false } : AppState).chat = some () := by
    show (runResults evs s).chat = some ()
    rw [runResults_chat]
    exact hc
  rw [h1]
  simp only [processAndSendTranscript]
  rw [if_pos ⟨ht, hc2⟩]
  cases hg : getAIChatResponse env.apiKeyPresent o <;> simp [hg]

/-- C1 witness: a session with one partial and one final segment; the partial
contributes nothing to the sent text. -/
theorem c1_witness :
    jsTrim (finalConcat (finalSegments [[{ transcript := "hi ", isFinal := false }],
        [{ transcript := "hi there", isFinal := true }]])) ≠ "" ∧
    (runResults [[{ transcript := "hi ", isFinal := false }],
        [{ transcript := "hi there", isFinal := true }]] s0A).userTranscript =
      finalConcat (finalSegments [[{ transcript := "hi ", isFinal := false }],
        [{ transcript := "hi there", isFinal := true }]]) ∧
    (onSREnd envA 5 5 (SendOutcome.ok "nice") (runResults
        [[{ transcript := "hi ", isFinal := false }],
         [{ transcript := "hi there", isFinal := true }]] s0A)).2.head? =
      some (Effect.backendSend (jsTrim (finalConcat (finalSegments
        [[{ transcript := "hi ", isFinal := false }],
         [{ transcript := "hi there", isFinal := true }]])))) := by
  have h := c1_final_transcript_sent envA
    [[{ transcript := "hi ", isFinal := false }], [{ transcript := "hi there", isFinal := true }]]
    s0A 5 5 (SendOutcome.ok "nice") rfl rfl (by decide)
  exact ⟨by decide, h.1, h.2⟩

/-- C1 counterexample: the claim as stated (plain, separator-free
concatenation of the finalized segments, trimmed) is false — with finalized
segments "a" then "b" the code sends "a b", not "ab". -/
theorem c1_counterexample :
    (onSREnd envA 5 5 (SendOutcome.ok "ok") (runResults c1Events s0A)).2.head? =
      some (Effect.backendSend "a b") ∧
    jsTrim (plainConcat (finalSegments c1Events)) = "ab" ∧
    ("a b" : String) ≠ "ab" := by
  decide

/-- C8: the transcript log is append-only — every runtime event either leaves
the message list unchanged or extends it at the end (Turns, being immutable
values, are never modified or removed), and the mount-time effect only
extends the initially empty list. -/
theorem c8_log_append_only :
    (∀ (env : Env) (e : Event) (s : AppState),
      ∃ tail, (step env e s).1.messages = s.messages ++ tail) ∧
    (∀ (env : Env) (o : Except String Unit) (c0 : Nat),
      ∃ tail, (initApp env o c0).1.messages = initialState.messages ++ tail) := by
  constructor
  · intro env e s
    cases e with
    | clickStart =>
      refine ⟨[], ?_⟩
      simp only [step, clickStartButton]
      split
      · rw [handleStart_messages]
        simp
      · simp
    | clickMic g n =>
      refine ⟨[], ?_⟩
      simp only [step, clickMicButton]
      split
      · simp
      · rw [handleToggle_messages]
        simp
    | srResult rs =>
      refine ⟨[], ?_⟩
      simp only [step]
      split <;> simp [onResult]
    | srError c =>
      refine ⟨[], ?_⟩
      simp only [step]
      split <;> simp [onSRError]
    | srEnd c1 c2 o =>
      simp only [step]
      split
      · simp only [onSREnd]
        exact process_messages_extend env c1 c2 o _ _
      · exact ⟨[], by simp⟩
    | speechEnd =>
      refine ⟨[], ?_⟩
      simp only [step]
      split <;> simp
    | speechError c =>
      refine ⟨[], ?_⟩
      simp only [step]
      split <;> simp
  · intro env o c0
    unfold initApp
    by_cases h : env.apiKeyPresent = false
    · exact ⟨[], by simp [h, initialState]⟩
    · cases o with
      | ok u =>
        exact ⟨[⟨Nat.repr c0, initialMessageText, Sender.ai, c0⟩], by simp [h, initialState]⟩
      | error em => exact ⟨[], by simp [h, initialState]⟩

/-- C9 (amended): Turn ids stay pairwise distinct across an exchange provided
the clock readings are fresh and monotone: every existing Turn id is the
decimal form of a number whose successor is below the user-turn reading, and
the user-turn reading does not exceed the response-turn reading.  With an
unconstrained millisecond clock the ids can collide (see the
counterexample). -/
theorem c9_turn_ids_unique (env : Env) (c1 c2 : Nat) (o : SendOutcome) (t : String)
    (s : AppState) (ht : jsTrim t ≠ "") (hc : s.chat = some ())
    (hfresh : ∀ m ∈ s.messages, ∃ k, m.id = Nat.repr k ∧ k + 1 < c1)
    (hmono : c1 ≤ c2)
    (hnd : (s.messages.map Message.id).Nodup) :
    ((processAndSendTranscript env c1 c2 o t s).1.messages.map Message.id).Nodup := by
  rw [process_messages_ids env c1 c2 o t s ht hc]
  rw [List.nodup_append]
  refine ⟨hnd, ?_, ?_⟩
  · simp only [List.nodup_cons, List.mem_singleton, List.nodup_nil, and_true,
      List.not_mem_nil, not_false_eq_true]
    intro hEq
    have := natRepr_injective hEq
    omega
  · intro x hx hx2
    simp only [List.mem_map] at hx
    obtain ⟨m, hm, rfl⟩ := hx
    obtain ⟨k, hkid, hk⟩ := hfresh m hm
    simp only [List.mem_cons, List.not_mem_nil, or_false] at hx2
    rcases hx2 with h1 | h2
    · rw [hkid] at h1
      have := natRepr_injective h1
      omega
    · rw [hkid] at h2
      have := natRepr_injective h2
      omega

/-- C9 witness: a concrete exchange with fresh readings keeps ids distinct. -/
theorem c9_witness :
    ((processAndSendTranscript envA 100 100 (SendOutcome.ok "nice") "hello" s0A).1.messages.map
      Message.id).Nodup := by
  apply c9_turn_ids_unique envA 100 100 (SendOutcome.ok "nice") "hello" s0A (by decide) rfl
  · intro m hm
    have hm2 : m = { id := Nat.repr 0, text := initialMessageText, sender := Sender.ai, timestamp := 0 } := by
      simpa [s0A, initApp, envA, initialState] using hm
    exact ⟨0, by rw [hm2], by omega⟩
  · omega
  · decide

/-- C9 counterexample: the claim as stated is false — along a concrete event
trace the agent Turn of one exchange and the user Turn of the next receive
the same id "101" although they are different Turns. -/
theorem c9_counterexample :
    (runEvents envA c9Trace s0A).messages[2]? =
      some { id := "101", text := "fine", sender := Sender.ai, timestamp := 100 } ∧
    (runEvents envA c9Trace s0A).messages[3]? =
      some { id := "101", text := "yo", sender := Sender.user, timestamp := 101 } ∧
    ({ id := "101", text := "fine", sender := Sender.ai, timestamp := 100 } : Message) ≠
      { id := "101", text := "yo", sender := Sender.user, timestamp := 101 } := by
  decide

/-- C3 counterexample: the claim as stated is false of the program under the
faithful asynchronous machine.  Along a concrete trace — start the
conversation (the greeting utterance is requested), click the microphone in
the window before the utterance's onstart fires (the cancel guard at
`src/App.tsx` line 179 sees `isAISpeaking = false` and is skipped), then
deliver onstart — a reachable state has `isRecording` and `isAISpeaking`
both true. -/
theorem c3_counterexample :
    ReachableAsync envA
      (stepAsync envA EventA.speechStart
        (stepAsync envA (EventA.clickMic true "")
          (stepAsync envA EventA.clickStart
            { app := s0A, pendingUtterance := none }).1).1).1 ∧
    (stepAsync envA EventA.speechStart
        (stepAsync envA (EventA.clickMic true "")
          (stepAsync envA EventA.clickStart
            { app := s0A, pendingUtterance := none }).1).1).1.app.isRecording = true ∧
    (stepAsync envA EventA.speechStart
        (stepAsync envA (EventA.clickMic true "")
          (stepAsync envA EventA.clickStart
            { app := s0A, pendingUtterance := none }).1).1).1.app.isAISpeaking = true := by
  refine ⟨?_, by decide, by decide⟩
  exact ReachableAsync.step EventA.speechStart
    (ReachableAsync.step (EventA.clickMic true "")
      (ReachableAsync.step EventA.clickStart (ReachableAsync.init (Except.ok ()) 0)))
